import Mathlib

/-!
Shallow embedding of the classification core of the breathsafe2 repository
(the MedicalImaging component). The repository holds three variants of the
component: src/src/components/MedicalImaging.tsx, whose catch path only
alerts ("backend-only classification"), and two unnamed variants
(src/unnamed/part_000 and part_001) whose catch path substitutes a mock,
clearly flagged simulated result. The pure helpers getRiskLevel and
getRecommendations are byte-identical across all three variants.

JavaScript numbers are modelled as rationals, Date values as naturals,
the File payload as an opaque record, the nondeterministic transport
outcome and the Math.random index as explicit parameters, and the React
state hooks as one explicit state record threaded through the handlers.
-/

namespace BreathSafe

/-- The riskLevel union type of the ClassificationResult interface:
low | moderate | high | critical. -/
inductive RiskLevel where
  | low
  | moderate
  | high
  | critical
  deriving DecidableEq, Repr

/-- Whether the character list pat occurs at the head of s (helper for the
JavaScript String.prototype.includes used by getRiskLevel). -/
def charsStartWith : List Char → List Char → Bool
  | _, [] => true
  | [], _ :: _ => false
  | c :: cs, d :: ds => c == d && charsStartWith cs ds

/-- Whether pat occurs contiguously anywhere in s. -/
def charsContain : List Char → List Char → Bool
  | [], pat => charsStartWith [] pat
  | s@(_ :: cs), pat => charsStartWith s pat || charsContain cs pat

/-- JavaScript s.includes(pat): substring containment on strings. -/
def jsIncludes (s pat : String) : Bool :=
  charsContain s.data pat.data

/-- getRiskLevel from the source (identical in all three variants):
first-match-wins on substrings of the prediction label. -/
def getRiskLevel (prediction : String) : RiskLevel :=
  if jsIncludes prediction "Benign" then .low
  else if jsIncludes prediction "Squamous" || jsIncludes prediction "Adenocarcinoma" then .critical
  else .high

/-- The baseRecommendations object literal of getRecommendations, as an
association list in source order. -/
def baseRecommendations : List (String × List String) := [
  ("Colon Adenocarcinoma", [
    "Immediate consultation with an oncologist required",
    "Schedule comprehensive staging workup",
    "Consider genetic counseling for family members",
    "Discuss treatment options including surgery and chemotherapy"]),
  ("Colon Benign", [
    "Continue regular screening as recommended",
    "Maintain healthy diet rich in fiber",
    "Monitor for any changes in bowel habits",
    "Follow up with gastroenterologist as scheduled"]),
  ("Lung Adenocarcinoma", [
    "Urgent referral to thoracic oncology team",
    "Complete staging with CT and PET scans",
    "Molecular testing for targeted therapy options",
    "Smoking cessation support if applicable"]),
  ("Lung Benign", [
    "Regular follow-up imaging as recommended",
    "Avoid smoking and secondhand smoke exposure",
    "Monitor for respiratory symptoms",
    "Maintain good respiratory hygiene"]),
  ("Lung Squamous Cell Carcinoma", [
    "Immediate thoracic surgery consultation",
    "Complete staging and biomarker testing",
    "Multidisciplinary team evaluation",
    "Consider clinical trial eligibility"])]

/-- getRecommendations from the source: exact-key lookup in the
baseRecommendations object, with the single fallback string for any
unknown label. -/
def getRecommendations (prediction : String) : List String :=
  match baseRecommendations.lookup prediction with
  | some recs => recs
  | none => ["Consult a doctor."]

/-- The five keys of the baseRecommendations object. -/
def knownLabels : List String :=
  baseRecommendations.map (fun e => e.1)

/-- The user-selected file: an opaque payload handle. -/
structure ImageFile where
  name : String
  deriving DecidableEq

/-- The ClassificationResult interface. The simulated field is optional in
the source (absent on the success path, absent from the tsx variant
altogether); absence is modelled as false, matching its falsy use. -/
structure ClassificationResult where
  prediction : String
  confidence : ℚ
  riskLevel : RiskLevel
  recommendations : List String
  timestamp : ℕ
  explanation : Option String
  simulated : Bool
  deriving DecidableEq

/-- The four useState hooks of the component as one state record. -/
structure ComponentState where
  selectedImage : Option ImageFile
  imagePreview : String
  isAnalyzing : Bool
  result : Option ClassificationResult
  deriving DecidableEq

/-- The parsed JSON body of a successful backend response. -/
structure BackendData where
  prediction : String
  confidence : ℚ
  ai_explanation : Option String
  deriving DecidableEq

/-- Outcome of the fetch to the analyze endpoint. The three failure
constructors are the three ways the try block can throw: the fetch
itself rejecting, res.ok being false, and res.json() rejecting. -/
inductive Transport where
  | netError
  | badStatus
  | parseError
  | ok (data : BackendData)
  deriving DecidableEq

/-- Whether the transport outcome lands in the catch block. -/
def Transport.isFailure : Transport → Bool
  | .ok _ => false
  | _ => true

/-- One entry of the mockPredictions array of the fallback variants
(the source field named class is rendered cls). -/
structure MockPrediction where
  cls : String
  confidence : ℚ
  risk : RiskLevel
  deriving DecidableEq

/-- The mockPredictions array of part_000 and part_001, in source order,
with the hardcoded risk strings of the source. -/
def mockPredictions : List MockPrediction := [
  ⟨"Colon Benign", 0.92, .low⟩,
  ⟨"Lung Adenocarcinoma", 0.87, .critical⟩,
  ⟨"Colon Adenocarcinoma", 0.78, .high⟩,
  ⟨"Lung Benign", 0.95, .low⟩,
  ⟨"Lung Squamous Cell Carcinoma", 0.83, .critical⟩]

/-- The fixed explanation string of the simulated fallback result. -/
def simulatedMessage : String :=
  "This is a simulated result due to backend timeout."

/-- classifyImage of the fallback variants (src/unnamed/part_000 and
part_001). Parameters: the Date at result creation, the Math.floor of
Math.random times five, the transport outcome, and the state.
Returns the state after the finally block. -/
def classifyImage (now : ℕ) (rnd : Fin 5) (t : Transport)
    (s : ComponentState) : ComponentState :=
  match s.selectedImage with
  | none => s
  | some _ =>
    let s1 : ComponentState := { s with isAnalyzing := true }
    let s2 : ComponentState :=
      match t with
      | .ok data =>
        let risk := getRiskLevel data.prediction
        { s1 with result := some {
            prediction := data.prediction
            confidence := data.confidence / 100
            riskLevel := risk
            recommendations := getRecommendations data.prediction
            timestamp := now
            explanation := data.ai_explanation
            simulated := false } }
      | _ =>
        let random := mockPredictions.get ⟨rnd.val, rnd.isLt⟩
        { s1 with result := some {
            prediction := random.cls
            confidence := random.confidence
            riskLevel := random.risk
            recommendations := getRecommendations random.cls
            timestamp := now
            explanation := some simulatedMessage
            simulated := true } }
    { s2 with isAnalyzing := false }

namespace BackendOnly

/-- classifyImage of src/src/components/MedicalImaging.tsx: the success
path is identical, but the catch block only logs and alerts, leaving
the result state untouched. -/
def classifyImage (now : ℕ) (t : Transport)
    (s : ComponentState) : ComponentState :=
  match s.selectedImage with
  | none => s
  | some _ =>
    let s1 : ComponentState := { s with isAnalyzing := true }
    let s2 : ComponentState :=
      match t with
      | .ok data =>
        let risk := getRiskLevel data.prediction
        { s1 with result := some {
            prediction := data.prediction
            confidence := data.confidence / 100
            riskLevel := risk
            recommendations := getRecommendations data.prediction
            timestamp := now
            explanation := data.ai_explanation
            simulated := false } }
      | _ => s1
    { s2 with isAnalyzing := false }

end BackendOnly

/-- handleImageUpload (identical in all three variants): with a file in
the change event it stores the file and clears the result (the preview
update happens later in the asynchronous reader callback, modelled
separately); with no file it does nothing. -/
def handleImageUpload (file : Option ImageFile)
    (s : ComponentState) : ComponentState :=
  match file with
  | some f => { s with selectedImage := some f, result := none }
  | none => s

/-- The reader.onload callback of handleImageUpload: stores the data URI
produced by readAsDataURL as the preview. -/
def readerOnLoad (dataUrl : String) (s : ComponentState) : ComponentState :=
  { s with imagePreview := dataUrl }

/-- Concrete fixtures for witnesses and counterexamples. -/
def sampleFile : ImageFile := ⟨"scan.png"⟩

def pendingState : ComponentState :=
  { selectedImage := some sampleFile
    imagePreview := "data:image/png;base64,AAAA"
    isAnalyzing := false
    result := none }

def idleState : ComponentState :=
  { selectedImage := none
    imagePreview := ""
    isAnalyzing := false
    result := none }

def sampleData : BackendData :=
  { prediction := "Lung Benign", confidence := 95, ai_explanation := none }

end BreathSafe

namespace BreathSafe

/-- Helper: on any label different from the five table keys,
getRecommendations falls through to the single fallback string. -/
theorem getRecommendations_unknown_aux (p : String)
    (h1 : p ≠ "Colon Adenocarcinoma") (h2 : p ≠ "Colon Benign")
    (h3 : p ≠ "Lung Adenocarcinoma") (h4 : p ≠ "Lung Benign")
    (h5 : p ≠ "Lung Squamous Cell Carcinoma") :
    getRecommendations p = ["Consult a doctor."] := by
  simp [getRecommendations, baseRecommendations, List.lookup,
    beq_eq_false_iff_ne.mpr h1, beq_eq_false_iff_ne.mpr h2, beq_eq_false_iff_ne.mpr h3,
    beq_eq_false_iff_ne.mpr h4, beq_eq_false_iff_ne.mpr h5]

/-- Claim C2: getRiskLevel is a pure first-match-wins function of the
prediction string: a label containing "Benign" maps to low; otherwise a
label containing "Squamous" or "Adenocarcinoma" maps to critical; every
other label maps to high; moderate is never returned. -/
theorem getRiskLevel_first_match (p : String) :
    (jsIncludes p "Benign" = true → getRiskLevel p = .low) ∧
    (jsIncludes p "Benign" = false →
      (jsIncludes p "Squamous" = true ∨ jsIncludes p "Adenocarcinoma" = true) →
      getRiskLevel p = .critical) ∧
    (jsIncludes p "Benign" = false → jsIncludes p "Squamous" = false →
      jsIncludes p "Adenocarcinoma" = false → getRiskLevel p = .high) ∧
    getRiskLevel p ≠ .moderate := by
  unfold getRiskLevel
  refine ⟨fun h => by simp [h], fun h1 h2 => ?_,
    fun h1 h2 h3 => by simp [h1, h2, h3], ?_⟩
  · rcases h2 with h | h <;> simp [h1, h]
  · split
    · simp
    · split <;> simp

/-- Claim C2 witness: the three branches at concrete labels. -/
theorem getRiskLevel_first_match_witness :
    getRiskLevel "Lung Benign" = RiskLevel.low ∧
    getRiskLevel "Colon Adenocarcinoma" = RiskLevel.critical ∧
    getRiskLevel "Normal Tissue" = RiskLevel.high :=
  ⟨(getRiskLevel_first_match "Lung Benign").1 (by decide),
   (getRiskLevel_first_match "Colon Adenocarcinoma").2.1 (by decide) (Or.inr (by decide)),
   (getRiskLevel_first_match "Normal Tissue").2.2.1 (by decide) (by decide) (by decide)⟩

/-- Claim C4: getRecommendations returns exactly the fixed ordered 4-item
advisory lists for the five known labels, and the single fallback entry
for every other string; lookup is an exact match on the keys. -/
theorem getRecommendations_table :
    getRecommendations "Colon Adenocarcinoma" = [
      "Immediate consultation with an oncologist required",
      "Schedule comprehensive staging workup",
      "Consider genetic counseling for family members",
      "Discuss treatment options including surgery and chemotherapy"] ∧
    getRecommendations "Colon Benign" = [
      "Continue regular screening as recommended",
      "Maintain healthy diet rich in fiber",
      "Monitor for any changes in bowel habits",
      "Follow up with gastroenterologist as scheduled"] ∧
    getRecommendations "Lung Adenocarcinoma" = [
      "Urgent referral to thoracic oncology team",
      "Complete staging with CT and PET scans",
      "Molecular testing for targeted therapy options",
      "Smoking cessation support if applicable"] ∧
    getRecommendations "Lung Benign" = [
      "Regular follow-up imaging as recommended",
      "Avoid smoking and secondhand smoke exposure",
      "Monitor for respiratory symptoms",
      "Maintain good respiratory hygiene"] ∧
    getRecommendations "Lung Squamous Cell Carcinoma" = [
      "Immediate thoracic surgery consultation",
      "Complete staging and biomarker testing",
      "Multidisciplinary team evaluation",
      "Consider clinical trial eligibility"] ∧
    ∀ p, p ≠ "Colon Adenocarcinoma" → p ≠ "Colon Benign" →
      p ≠ "Lung Adenocarcinoma" → p ≠ "Lung Benign" →
      p ≠ "Lung Squamous Cell Carcinoma" →
      getRecommendations p = ["Consult a doctor."] :=
  ⟨rfl, rfl, rfl, rfl, rfl, getRecommendations_unknown_aux⟩

/-- Claim C4 witness: an unknown label (exact match fails, including on
case) falls back to the single advisory entry. -/
theorem getRecommendations_table_witness :
    getRecommendations "colon benign" = ["Consult a doctor."] :=
  getRecommendations_table.2.2.2.2.2 "colon benign"
    (by decide) (by decide) (by decide) (by decide) (by decide)

end BreathSafe

namespace BreathSafe

/-- Claim C10: the pure helpers are total over all strings: getRiskLevel
always yields one of low, high, critical (the empty string yields high),
and getRecommendations always yields a non-empty list, of length 4 on
the five known labels and length 1 on every other string. -/
theorem risk_and_recommendations_total (p : String) :
    (getRiskLevel p = .low ∨ getRiskLevel p = .high ∨ getRiskLevel p = .critical) ∧
    getRiskLevel "" = .high ∧
    getRecommendations p ≠ [] ∧
    (getRecommendations p).length = (if p ∈ knownLabels then 4 else 1) := by
  refine ⟨?_, by decide, ?_⟩
  · unfold getRiskLevel
    split
    · exact Or.inl rfl
    · split
      · exact Or.inr (Or.inr rfl)
      · exact Or.inr (Or.inl rfl)
  · by_cases h1 : p = "Colon Adenocarcinoma"
    · subst h1; exact ⟨by decide, by decide⟩
    by_cases h2 : p = "Colon Benign"
    · subst h2; exact ⟨by decide, by decide⟩
    by_cases h3 : p = "Lung Adenocarcinoma"
    · subst h3; exact ⟨by decide, by decide⟩
    by_cases h4 : p = "Lung Benign"
    · subst h4; exact ⟨by decide, by decide⟩
    by_cases h5 : p = "Lung Squamous Cell Carcinoma"
    · subst h5; exact ⟨by decide, by decide⟩
    have hu := getRecommendations_unknown_aux p h1 h2 h3 h4 h5
    have hm : p ∉ knownLabels := by
      simp [knownLabels, baseRecommendations]
      exact ⟨h1, h2, h3, h4, h5⟩
    rw [hu]
    simp [hm]

/-- Claim C1 counterexample: in the variant at
src/src/components/MedicalImaging.tsx, a failing transport on a pending
image leaves the result null: no non-null simulated result is produced,
contrary to the claim read over that classifyImage. -/
theorem backendOnly_failure_yields_no_result :
    pendingState.selectedImage = some sampleFile ∧
    Transport.isFailure Transport.netError = true ∧
    (BackendOnly.classifyImage 0 Transport.netError pendingState).result = none :=
  ⟨rfl, rfl, rfl⟩

/-- Claim C1 (amended): in the fallback variants (part_000, part_001),
classifyImage on a pending image and a failing transport resolves with a
non-null result whose simulated flag is true and whose explanation is the
fixed simulated-result message; in the backend-only variant
(MedicalImaging.tsx) it likewise does not throw but leaves the result
state unchanged, producing no simulated result. -/
theorem classify_failure_simulated_fallback (now : ℕ) (rnd : Fin 5)
    (t : Transport) (s : ComponentState) (f : ImageFile)
    (hsel : s.selectedImage = some f) (hfail : t.isFailure = true) :
    ((classifyImage now rnd t s).result.map (fun r => r.simulated) = some true) ∧
    ((classifyImage now rnd t s).result.map (fun r => r.explanation) =
      some (some simulatedMessage)) ∧
    (BackendOnly.classifyImage now t s).result = s.result := by
  cases t <;>
    simp_all [classifyImage, BackendOnly.classifyImage, Transport.isFailure]

/-- Claim C1 witness: the fallback at a concrete pending state, network
error and mock index 0. -/
theorem classify_failure_simulated_fallback_witness :
    ((classifyImage 0 ⟨0, by norm_num⟩ Transport.netError pendingState).result.map
      (fun r => r.simulated) = some true) ∧
    ((classifyImage 0 ⟨0, by norm_num⟩ Transport.netError pendingState).result.map
      (fun r => r.explanation) = some (some simulatedMessage)) ∧
    (BackendOnly.classifyImage 0 Transport.netError pendingState).result =
      pendingState.result :=
  classify_failure_simulated_fallback 0 ⟨0, by norm_num⟩ Transport.netError
    pendingState sampleFile rfl rfl

end BreathSafe

namespace BreathSafe

/-- Claim C3 counterexample: on the fallback path with mock index 2 the
produced result carries prediction Colon Adenocarcinoma with the
hardcoded risk high, while the Risk Derivation Rule yields critical for
that prediction. -/
theorem classify_fallback_risk_mismatch :
    ((classifyImage 0 ⟨2, by norm_num⟩ Transport.netError pendingState).result.map
      (fun r => r.prediction) = some "Colon Adenocarcinoma") ∧
    ((classifyImage 0 ⟨2, by norm_num⟩ Transport.netError pendingState).result.map
      (fun r => r.riskLevel) = some RiskLevel.high) ∧
    getRiskLevel "Colon Adenocarcinoma" = RiskLevel.critical := by
  refine ⟨rfl, rfl, by decide⟩

/-- Claim C3 (amended): on the success path the riskLevel of the produced
result always equals getRiskLevel of its prediction; on the fallback path
it equals the risk hardcoded in the chosen mockPredictions entry, which
agrees with getRiskLevel of that entry for every index except 2 (the
Colon Adenocarcinoma entry stores high, the rule yields critical). -/
theorem classify_riskLevel_spec (now : ℕ) (rnd : Fin 5) (data : BackendData)
    (t : Transport) (s : ComponentState) (f : ImageFile)
    (hsel : s.selectedImage = some f) :
    ((classifyImage now rnd (Transport.ok data) s).result.map (fun r => r.riskLevel) =
      some (getRiskLevel data.prediction)) ∧
    (t.isFailure = true →
      (classifyImage now rnd t s).result.map (fun r => r.riskLevel) =
        some (mockPredictions.get ⟨rnd.val, rnd.isLt⟩).risk) ∧
    (rnd.val ≠ 2 →
      (mockPredictions.get ⟨rnd.val, rnd.isLt⟩).risk =
        getRiskLevel (mockPredictions.get ⟨rnd.val, rnd.isLt⟩).cls) := by
  refine ⟨by simp [classifyImage, hsel], fun hfail => ?_, fun hne => ?_⟩
  · cases t <;> simp_all [classifyImage, Transport.isFailure]
  · fin_cases rnd
    · decide
    · decide
    · exact absurd rfl hne
    · decide
    · decide

/-- Claim C3 witness: success path at a concrete state and backend body,
and the fallback at mock index 1 where the stored risk agrees with the
rule. -/
theorem classify_riskLevel_spec_witness :
    ((classifyImage 0 ⟨1, by norm_num⟩ (Transport.ok sampleData) pendingState).result.map
      (fun r => r.riskLevel) = some (getRiskLevel "Lung Benign")) ∧
    ((classifyImage 0 ⟨1, by norm_num⟩ Transport.netError pendingState).result.map
      (fun r => r.riskLevel) =
      some (mockPredictions.get ⟨1, by decide⟩).risk) ∧
    (mockPredictions.get ⟨1, by decide⟩).risk =
      getRiskLevel (mockPredictions.get ⟨1, by decide⟩).cls := by
  obtain ⟨h1, h2, h3⟩ := classify_riskLevel_spec 0 ⟨1, by norm_num⟩ sampleData
    Transport.netError pendingState sampleFile rfl
  exact ⟨h1, h2 rfl, h3 (by norm_num)⟩

/-- Claim C5: on the success path the confidence of the produced result is
the backend value divided by 100, and for a backend value in the range
0 to 100 that quotient lies in the unit interval. -/
theorem classify_confidence_normalized (now : ℕ) (rnd : Fin 5)
    (data : BackendData) (s : ComponentState) (f : ImageFile)
    (hsel : s.selectedImage = some f) :
    ((classifyImage now rnd (Transport.ok data) s).result.map (fun r => r.confidence) =
      some (data.confidence / 100)) ∧
    (0 ≤ data.confidence → data.confidence ≤ 100 →
      0 ≤ data.confidence / 100 ∧ data.confidence / 100 ≤ 1) := by
  refine ⟨by simp [classifyImage, hsel], fun h0 h100 => ⟨by positivity, ?_⟩⟩
  rw [div_le_one (by norm_num)]
  exact h100

/-- Claim C5 witness: backend value 95 at a concrete pending state yields
confidence 95 / 100, inside the unit interval. -/
theorem classify_confidence_normalized_witness :
    ((classifyImage 0 ⟨0, by norm_num⟩ (Transport.ok sampleData) pendingState).result.map
      (fun r => r.confidence) = some ((95 : ℚ) / 100)) ∧
    (0 ≤ (95 : ℚ) / 100 ∧ (95 : ℚ) / 100 ≤ 1) := by
  obtain ⟨h1, h2⟩ := classify_confidence_normalized 0 ⟨0, by norm_num⟩ sampleData
    pendingState sampleFile rfl
  exact ⟨h1, h2 (by norm_num [sampleData]) (by norm_num [sampleData])⟩

end BreathSafe

namespace BreathSafe

/-- Claim C6: when handleImageUpload receives a file, the current result
is cleared and the file becomes the pending selection, so no stale result
coexists with the newly selected image. -/
theorem handleImageUpload_clears_result (f : ImageFile) (s : ComponentState) :
    (handleImageUpload (some f) s).result = none ∧
    (handleImageUpload (some f) s).selectedImage = some f :=
  ⟨rfl, rfl⟩

/-- Claim C7: with a pending image, both variants of classifyImage leave
the analyzing flag false after completion, on the success path and on
every failure path alike. -/
theorem classify_clears_analyzing (now : ℕ) (rnd : Fin 5) (t : Transport)
    (s : ComponentState) (f : ImageFile)
    (hsel : s.selectedImage = some f) :
    (classifyImage now rnd t s).isAnalyzing = false ∧
    (BackendOnly.classifyImage now t s).isAnalyzing = false := by
  constructor <;> simp [classifyImage, BackendOnly.classifyImage, hsel]

/-- Claim C7 witness: a concrete pending state under a network error and
under a successful response. -/
theorem classify_clears_analyzing_witness :
    ((classifyImage 0 ⟨0, by norm_num⟩ Transport.netError pendingState).isAnalyzing
      = false) ∧
    ((BackendOnly.classifyImage 0 Transport.netError pendingState).isAnalyzing
      = false) ∧
    ((classifyImage 0 ⟨0, by norm_num⟩ (Transport.ok sampleData)
      pendingState).isAnalyzing = false) :=
  ⟨(classify_clears_analyzing 0 ⟨0, by norm_num⟩ Transport.netError
      pendingState sampleFile rfl).1,
   (classify_clears_analyzing 0 ⟨0, by norm_num⟩ Transport.netError
      pendingState sampleFile rfl).2,
   (classify_clears_analyzing 0 ⟨0, by norm_num⟩ (Transport.ok sampleData)
      pendingState sampleFile rfl).1⟩

/-- Claim C8: with no pending image, both variants of classifyImage
return the state unchanged: no request outcome is consumed, the result
and the analyzing flag keep their prior values. -/
theorem classify_noop_without_image (now : ℕ) (rnd : Fin 5) (t : Transport)
    (s : ComponentState) (hsel : s.selectedImage = none) :
    classifyImage now rnd t s = s ∧ BackendOnly.classifyImage now t s = s := by
  constructor <;> simp [classifyImage, BackendOnly.classifyImage, hsel]

/-- Claim C8 witness: the idle state with no selection is returned intact
by both variants. -/
theorem classify_noop_without_image_witness :
    classifyImage 7 ⟨3, by norm_num⟩ Transport.badStatus idleState = idleState ∧
    BackendOnly.classifyImage 7 Transport.badStatus idleState = idleState :=
  classify_noop_without_image 7 ⟨3, by norm_num⟩ Transport.badStatus idleState rfl

/-- Claim C9: when the change event carries no file, handleImageUpload is
the identity on the component state: the selection, the preview and the
current result all keep their prior values. -/
theorem handleImageUpload_none_noop (s : ComponentState) :
    handleImageUpload none s = s :=
  rfl

end BreathSafe
